import Mathlib

/-!
Verification of the insight-generation and caching pipeline of the
shopify-business-sidekick repository.

The JavaScript source is shallowly embedded: JS strings become `String`
(manipulated through their `List Char` data), JS numbers carrying money or
ratios become `ℚ`, JS integers become `ℕ`, timestamps become `ℤ`
(milliseconds), `null`-able values become `Option`, and the mutable
in-memory stores become explicit state records threaded through the
operations.  The single LLM invocation is an opaque function argument, as
the source treats it as an external boundary.
-/

set_option maxRecDepth 40000

namespace SBS

/-! ## JavaScript string primitives

Models of the JS string operations used by the source: `trim`,
`includes`, `split(/###\s*/)`, `replace(/^[^\n]+\n/, "")`,
`toUpperCase`, `toLowerCase`. -/

/-- Characters treated as whitespace by the JS `\s` class and `trim`
(the ASCII whitespace characters plus NBSP and the BOM). -/
def isJsWs (c : Char) : Bool :=
  c = ' ' || c = '\t' || c = '\n' || c = '\r' || c = '\x0B' || c = '\x0C' ||
    c = '\u00A0' || c = '\uFEFF'

/-- Model of `String.prototype.trim`: strip whitespace from both ends. -/
def jsTrim (l : List Char) : List Char :=
  ((l.dropWhile isJsWs).reverse.dropWhile isJsWs).reverse

/-- Boolean prefix test on character lists. -/
def leadsList : List Char → List Char → Bool
  | [], _ => true
  | _ :: _, [] => false
  | a :: as, b :: bs => if a = b then leadsList as bs else false

/-- Boolean contiguous-occurrence test: `occursIn pat l` holds when `pat`
appears as a contiguous run inside `l`.  Model of JS `includes`. -/
def occursIn (pat : List Char) : List Char → Bool
  | [] => leadsList pat []
  | c :: t => leadsList pat (c :: t) || occursIn pat t

/-- String-level wrapper of `occursIn`: `hay.includes(pat)` in JS. -/
def containsStr (hay pat : String) : Bool :=
  occursIn pat.data hay.data

/-- Prepend a character to the first segment of a segment list. -/
def consHead (c : Char) : List (List Char) → List (List Char)
  | [] => [[c]]
  | s :: ss => (c :: s) :: ss

/-- Cut the character stream at every occurrence of three consecutive
`#` characters, scanning left to right without overlap. -/
def splitHash : List Char → List (List Char)
  | '#' :: '#' :: '#' :: rest => [] :: splitHash rest
  | c :: rest => consHead c (splitHash rest)
  | [] => [[]]

/-- Model of `text.split(/###\s*/)`: cut at every `###` and strip from
every segment after a cut the greedy whitespace run the `\s*` of the
separator pattern consumes (`\s` never matches `#`, so the cut points
coincide with the `###` occurrences).  Leading and trailing empty
segments are produced exactly as JS `split` produces them. -/
def splitSecs (l : List Char) : List (List Char) :=
  match splitHash l with
  | [] => []
  | s :: ss => s :: ss.map fun seg => seg.dropWhile isJsWs

/-- Model of `trimmed.replace(/^[^\n]+\n/, "")`: drop the first line
together with its newline, provided the string starts with at least one
non-newline character and actually contains a newline; otherwise the
string is returned unchanged (the regex does not match). -/
def stripHead (t : List Char) : List Char :=
  match t with
  | [] => []
  | c :: _ =>
    if c = '\n' then t
    else
      match t.dropWhile (fun d => d ≠ '\n') with
      | [] => t
      | _ :: r => r

/-- First line of an (already trimmed) segment, uppercased: model of
`trimmed.split("\n")[0].toUpperCase()`. -/
def firstLineUpper (t : List Char) : List Char :=
  (t.takeWhile (fun d => d ≠ '\n')).map Char.toUpper

/-- The body a matched segment contributes to a tile: model of
`trimmed.replace(/^[^\n]+\n/, "").trim()` applied to `section.trim()`. -/
def segBody (seg : List Char) : String :=
  ⟨jsTrim (stripHead (jsTrim seg))⟩

/-! ## JavaScript number formatting

Models of the number renderings used by the prompt builder:
`toLocaleString()` (decimal digits with thousands separators),
`toFixed(2)` / `toFixed(1)` / `toFixed(0)` (fixed-point rounding half
away from zero, the behaviour JS exhibits on the exact decimal values
arising here), and default number-to-string conversion restricted to
values with at most two decimal places (which is what `buildDataSummary`
stores after its own `toFixed(2)` rounding). -/

/-- Decimal digit character for `k < 10`. -/
def digitChar (k : ℕ) : Char :=
  if k = 0 then '0' else if k = 1 then '1' else if k = 2 then '2'
  else if k = 3 then '3' else if k = 4 then '4' else if k = 5 then '5'
  else if k = 6 then '6' else if k = 7 then '7' else if k = 8 then '8'
  else '9'

/-- Decimal digits, fuelled so that the recursion is structural (the
fuel `n + 1` always suffices since `n / 10 < n` for `n ≥ 10`). -/
def natCharsAux : ℕ → ℕ → List Char
  | 0, _ => []
  | fuel + 1, n =>
    if n < 10 then [digitChar n]
    else natCharsAux fuel (n / 10) ++ [digitChar (n % 10)]

/-- Decimal digits of a natural number, most significant first. -/
def natChars (n : ℕ) : List Char := natCharsAux (n + 1) n

/-- Insert a comma after every three characters (applied to the reversed
digit list to group thousands). -/
def group3 : List Char → List Char
  | a :: b :: c :: d :: rest => a :: b :: c :: ',' :: group3 (d :: rest)
  | l => l

/-- Model of `Number.prototype.toLocaleString()` on a non-negative
integer in an en-style locale: digits grouped in threes by commas. -/
def natLocale (n : ℕ) : List Char :=
  (group3 (natChars n).reverse).reverse

/-- The value of `q` in hundredths, rounded half away from zero:
the integer JS `toFixed(2)` renders (up to sign). -/
def centsOf (q : ℚ) : ℤ :=
  if 0 ≤ q then Rat.floor (q * 100 + 1 / 2) else -Rat.floor (-q * 100 + 1 / 2)

/-- The value of `q` in tenths, rounded half away from zero. -/
def tenthsOf (q : ℚ) : ℤ :=
  if 0 ≤ q then Rat.floor (q * 10 + 1 / 2) else -Rat.floor (-q * 10 + 1 / 2)

/-- The value of `q` rounded to an integer, half away from zero. -/
def unitsOf (q : ℚ) : ℤ :=
  if 0 ≤ q then Rat.floor (q + 1 / 2) else -Rat.floor (-q + 1 / 2)

/-- Two decimal digits, left-padded with `0`. -/
def pad2 (k : ℕ) : List Char :=
  if k < 10 then '0' :: natChars k else natChars k

/-- Model of `toFixed(2)`. -/
def fixed2Chars (q : ℚ) : List Char :=
  (if centsOf q < 0 then ['-'] else []) ++
    natChars ((centsOf q).natAbs / 100) ++ '.' :: pad2 ((centsOf q).natAbs % 100)

/-- Model of `toFixed(1)`. -/
def fixed1Chars (q : ℚ) : List Char :=
  (if tenthsOf q < 0 then ['-'] else []) ++
    natChars ((tenthsOf q).natAbs / 10) ++ '.' :: [digitChar ((tenthsOf q).natAbs % 10)]

/-- Model of `toFixed(0)`. -/
def fixed0Chars (q : ℚ) : List Char :=
  (if unitsOf q < 0 then ['-'] else []) ++ natChars (unitsOf q).natAbs

/-- Model of JS default number-to-string conversion for a value with at
most two decimal places: minimal decimal notation, trailing zero decimals
omitted. -/
def jsNumChars (q : ℚ) : List Char :=
  (if centsOf q < 0 then ['-'] else []) ++
    natChars ((centsOf q).natAbs / 100) ++
      (if (centsOf q).natAbs % 100 = 0 then []
       else if (centsOf q).natAbs % 100 % 10 = 0 then
         '.' :: [digitChar ((centsOf q).natAbs % 100 / 10)]
       else '.' :: pad2 ((centsOf q).natAbs % 100))

def strNat (n : ℕ) : String := ⟨natChars n⟩

def strLocale (n : ℕ) : String := ⟨natLocale n⟩

def strFixed2 (q : ℚ) : String := ⟨fixed2Chars q⟩

def strFixed1 (q : ℚ) : String := ⟨fixed1Chars q⟩

def strFixed0 (q : ℚ) : String := ⟨fixed0Chars q⟩

def jsNumStr (q : ℚ) : String := ⟨jsNumChars q⟩

/-- Model of `Array.prototype.join(sep)`. -/
def joinSep (sep : String) : List String → String
  | [] => ""
  | [x] => x
  | x :: y :: xs => x ++ sep ++ joinSep sep (y :: xs)

/-- List with 0-based indices attached: model of the index argument of
`Array.prototype.forEach`. -/
def withIdx0 (k : ℕ) : List α → List (ℕ × α)
  | [] => []
  | x :: xs => (k, x) :: withIdx0 (k + 1) xs

def withIdx (l : List α) : List (ℕ × α) := withIdx0 0 l

/-- Concatenation of a list of strings in order: model of sequential
`+=` accumulation. -/
def catList (l : List String) : String := l.foldl (· ++ ·) ""

/-! ## Data model

The connector output shapes and the canonical data summary, embedded
from `lib/shopify.js`, `lib/analytics.js`, `lib/meta.js` and
`prompts.js` (`buildDataSummary`). -/

/-- The aggregate statistics built by `getShopifyOrderData`. -/
structure ShopifyStats where
  orderCount : ℕ
  revenue : ℚ
  avgOrderValue : ℚ
  sampleSize : ℕ
  revenueIsEstimated : Bool
deriving DecidableEq

/-- Output shape of `fetchGoogleAnalyticsData`. -/
structure AnalyticsData where
  sessions : ℕ
  pageViews : ℕ
  users : ℕ
  bounceRate : ℚ
deriving DecidableEq

/-- Output shape of `fetchMetaAdsData`. -/
structure AdPlatformData where
  spend : ℚ
  impressions : ℕ
  clicks : ℕ
  purchases : ℕ
  revenue : ℚ
deriving DecidableEq

/-- One aggregated product bucket of the top-products breakdown. -/
structure Product where
  title : String
  revenue : ℚ
  units : ℕ
deriving DecidableEq

/-- The top-products breakdown computed by `getShopifyOrderData`. -/
structure TopProducts where
  byRevenue : List Product
  byUnits : List Product
deriving DecidableEq

/-- A paid order as consumed by the revenue aggregation: its
`total_price` after `parseFloat`, absent when the upstream JSON lacked
the field (the source defaults it to `0` via `|| 0`). -/
structure Order where
  total_price : Option ℚ
deriving DecidableEq

/-- The `shopify` block of the data summary (`buildDataSummary`). -/
structure ShopifySummary where
  orders : ℕ
  revenue : ℚ
  revenue_is_estimated : Bool
  aov : ℚ
  sample_size : ℕ
deriving DecidableEq

/-- The `ga4` block of the data summary. -/
structure Ga4Summary where
  sessions : ℕ
  bounce_rate : ℚ
  users : ℕ
  page_views : ℕ
deriving DecidableEq

/-- The `meta_ads` block of the data summary; `roas`, `cpc` and `ctr`
are `null` when their denominators are zero. -/
structure MetaAdsSummary where
  spend : ℚ
  impressions : ℕ
  clicks : ℕ
  purchases : ℕ
  revenue : ℚ
  roas : Option ℚ
  cpc : Option ℚ
  ctr : Option ℚ
deriving DecidableEq

/-- One product entry of the `top_products` block. -/
structure ProductSummary where
  title : String
  revenue : ℚ
  units : ℕ
deriving DecidableEq

/-- The `top_products` block of the data summary. -/
structure TopProductsSummary where
  by_revenue : List ProductSummary
  by_units : List ProductSummary
deriving DecidableEq

/-- The canonical data summary handed to the prompt builder and the
context validator (`buildDataSummary`). -/
structure DataSummary where
  period : String
  shopify : ShopifySummary
  ga4 : Option Ga4Summary
  meta_ads : Option MetaAdsSummary
  top_products : Option TopProductsSummary
deriving DecidableEq

/-- Rounding to two decimal places: model of
`parseFloat(x.toFixed(2))` as used by `buildDataSummary`. -/
def round2 (q : ℚ) : ℚ := (centsOf q : ℚ) / 100

/-- Embedding of `buildDataSummary` from `prompts.js`. -/
def buildDataSummary (shopifyStats : ShopifyStats) (gaData : Option AnalyticsData)
    (metaAdsData : Option AdPlatformData) (topProducts : Option TopProducts) :
    DataSummary :=
  { period := "Last 30 days"
    shopify :=
      { orders := shopifyStats.orderCount
        revenue := shopifyStats.revenue
        revenue_is_estimated := shopifyStats.revenueIsEstimated
        aov := shopifyStats.avgOrderValue
        sample_size := shopifyStats.sampleSize }
    ga4 :=
      match gaData with
      | none => none
      | some g =>
        some { sessions := g.sessions, bounce_rate := g.bounceRate,
               users := g.users, page_views := g.pageViews }
    meta_ads :=
      match metaAdsData with
      | none => none
      | some m =>
        some { spend := m.spend
               impressions := m.impressions
               clicks := m.clicks
               purchases := m.purchases
               revenue := m.revenue
               roas := if m.spend > 0 then some (round2 (m.revenue / m.spend)) else none
               cpc := if m.clicks > 0 then some (round2 (m.spend / m.clicks)) else none
               ctr := if m.impressions > 0 then
                        some (round2 (m.clicks / m.impressions * 100))
                      else none }
    top_products :=
      match topProducts with
      | none => none
      | some tp =>
        some { by_revenue := tp.byRevenue.map fun p =>
                 { title := p.title, revenue := round2 p.revenue, units := p.units }
               by_units := tp.byUnits.map fun p =>
                 { title := p.title, revenue := round2 p.revenue, units := p.units } } }

/-! ## Shopify order aggregation

Embedding of the cache-miss path of `getShopifyOrderData`
(`lib/shopify.js`, lines 112-122): `orderCount` comes from the
`orders/count?status=any` endpoint, while revenue, sample size and AOV
are computed over the fully paginated list of paid orders. -/

/-- The `ShopifyStats` value built on a cache miss from the any-status
order count and the paginated paid orders. -/
def shopifyStatsOnMiss (countAnyStatus : ℕ) (allPaidOrders : List Order) :
    ShopifyStats :=
  { orderCount := countAnyStatus
    revenue := (allPaidOrders.map fun o => o.total_price.getD 0).sum
    avgOrderValue :=
      if allPaidOrders.length > 0 then
        (allPaidOrders.map fun o => o.total_price.getD 0).sum / allPaidOrders.length
      else 0
    sampleSize := allPaidOrders.length
    revenueIsEstimated := false }

/-! ## Tile parsing and severity derivation

Embedding of the response-parsing loop and the severity derivations of
`generateTileInsights` (`lib/insights.js`, lines 40-66). -/

inductive Severity where
  | healthy
  | warning
  | critical
deriving DecidableEq

/-- The five tile bodies populated by the parsing loop. -/
@[ext]
structure TileBodies where
  healthCheck : String
  biggestIssue : String
  quickWin : String
  opportunity : String
  adPerformance : String
deriving DecidableEq

/-- Processing of one segment of the split response: skip it when it
trims to nothing, otherwise classify it by its uppercased first line and
overwrite the corresponding tile body. -/
def classify (t : TileBodies) (seg : List Char) : TileBodies :=
  if (jsTrim seg).isEmpty then t
  else
    let fl := firstLineUpper (jsTrim seg)
    let body := segBody seg
    if occursIn "HEALTH".data fl then { t with healthCheck := body }
    else if occursIn "ISSUE".data fl then { t with biggestIssue := body }
    else if occursIn "QUICK".data fl || occursIn "WIN".data fl then
      { t with quickWin := body }
    else if occursIn "OPPORTUN".data fl then { t with opportunity := body }
    else if occursIn "AD".data fl && occursIn "PERF".data fl then
      { t with adPerformance := body }
    else t

/-- The parsing loop of `generateTileInsights`: split the model text on
`###` markers and fold every segment through `classify`, starting from
all-empty tile bodies. -/
def parseBodies (text : String) : TileBodies :=
  (splitSecs text.data).foldl classify ⟨"", "", "", "", ""⟩

/-- Severity derived from the status markers embedded in the
`healthCheck` text (`lib/insights.js`, lines 54-56): the warning marker
is tested first, the critical marker only in the `else` branch. -/
def healthSeverityOf (healthCheck : String) : Severity :=
  if containsStr healthCheck "🟡" then Severity.warning
  else if containsStr healthCheck "🔴" then Severity.critical
  else Severity.healthy

/-- Severity derived numerically from the ad-platform numbers
(`lib/insights.js`, lines 58-63). -/
def adSeverityOf (metaAdsData : Option AdPlatformData) : Severity :=
  match metaAdsData with
  | none => Severity.healthy
  | some m =>
    if m.spend > 0 then
      if m.revenue / m.spend < 3 / 2 then Severity.critical
      else if m.revenue / m.spend ≤ 5 / 2 then Severity.warning
      else Severity.healthy
    else Severity.healthy

/-- The full tile record returned by `generateTileInsights`. -/
structure Tiles where
  healthCheck : String
  biggestIssue : String
  quickWin : String
  opportunity : String
  adPerformance : String
  healthSeverity : Severity
  adSeverity : Severity
deriving DecidableEq

/-- Assembly of the returned tile record from the model text and the
ad-platform data: parse the text, then attach both severities. -/
def assembleTiles (text : String) (metaAdsData : Option AdPlatformData) : Tiles :=
  let b := parseBodies text
  { healthCheck := b.healthCheck
    biggestIssue := b.biggestIssue
    quickWin := b.quickWin
    opportunity := b.opportunity
    adPerformance := b.adPerformance
    healthSeverity := healthSeverityOf b.healthCheck
    adSeverity := adSeverityOf metaAdsData }

/-! ## Token store and caches

Embedding of `lib/cache.js`: the three per-tenant in-memory maps become
one state record; `Date.now()` becomes an explicit `now : ℤ` argument
(milliseconds). A cache entry is the stored value paired with the
timestamp the store attached to it. -/

/-- A stored access token (`setShopToken`). -/
structure TokenData where
  accessToken : String
  installedAt : ℤ
deriving DecidableEq

/-- The process state: token store, insights cache, order-data cache. -/
structure Store (ι ω : Type) where
  shopTokens : String → Option TokenData
  insightsCache : String → Option (ι × ℤ)
  orderDataCache : String → Option (ω × ℤ)

def INSIGHTS_TTL : ℤ := 24 * 60 * 60 * 1000

def ORDER_DATA_TTL : ℤ := 24 * 60 * 60 * 1000

def getShopToken (st : Store ι ω) (shop : String) : Option TokenData :=
  st.shopTokens shop

def setShopToken (st : Store ι ω) (shop : String) (accessToken : String)
    (now : ℤ) : Store ι ω :=
  { st with shopTokens := fun s =>
      if s = shop then some ⟨accessToken, now⟩ else st.shopTokens s }

/-- Embedding of `deleteShopToken`: removes the token and both cache
entries of the shop in one step. -/
def deleteShopToken (st : Store ι ω) (shop : String) : Store ι ω :=
  { shopTokens := fun s => if s = shop then none else st.shopTokens s
    insightsCache := fun s => if s = shop then none else st.insightsCache s
    orderDataCache := fun s => if s = shop then none else st.orderDataCache s }

/-- Embedding of `getCachedInsights`: absent or older than the TTL means
`null`. -/
def getCachedInsights (st : Store ι ω) (now : ℤ) (shop : String) :
    Option (ι × ℤ) :=
  match st.insightsCache shop with
  | none => none
  | some (d, generatedAt) =>
    if now - generatedAt > INSIGHTS_TTL then none else some (d, generatedAt)

def setCachedInsights (st : Store ι ω) (shop : String) (d : ι) (now : ℤ) :
    Store ι ω :=
  { st with insightsCache := fun s =>
      if s = shop then some (d, now) else st.insightsCache s }

def clearInsightsCache (st : Store ι ω) (shop : String) : Store ι ω :=
  { st with insightsCache := fun s =>
      if s = shop then none else st.insightsCache s }

/-- Embedding of `getCachedOrderData`: like the insights lookup, but an
expired entry is also deleted from the store, so the result is the
looked-up value paired with the possibly updated store. -/
def getCachedOrderData (st : Store ι ω) (now : ℤ) (shop : String) :
    Option (ω × ℤ) × Store ι ω :=
  match st.orderDataCache shop with
  | none => (none, st)
  | some (d, cachedAt) =>
    if now - cachedAt > ORDER_DATA_TTL then
      (none, { st with orderDataCache := fun s =>
                 if s = shop then none else st.orderDataCache s })
    else (some (d, cachedAt), st)

def setCachedOrderData (st : Store ι ω) (shop : String) (d : ω) (now : ℤ) :
    Store ι ω :=
  { st with orderDataCache := fun s =>
      if s = shop then some (d, now) else st.orderDataCache s }

def clearOrderDataCache (st : Store ι ω) (shop : String) : Store ι ω :=
  { st with orderDataCache := fun s =>
      if s = shop then none else st.orderDataCache s }

/-! ## Business context and system prompt

Embedding of the `business-context.json` schema consumed by
`buildSystemPrompt` and `validateBusinessContext`, and of
`buildSystemPrompt` itself. -/

structure MetricDef where
  definition : String
  warning : String

structure RuleDef where
  rule : String

structure BusinessProfile where
  store_name : String
  industry : String
  business_stage : String
  aov_band : String
  margin_model : String
  currency : String
  currency_symbol : String
  hero_products : List String

structure DataContracts where
  revenue : MetricDef
  orders : MetricDef
  sessions : MetricDef
  conversion_rate : MetricDef
  roas : MetricDef

structure AttributionRules where
  discrepancy_flag : RuleDef

structure SafetyRails where
  minimum_purchases : RuleDef
  minimum_trend_days : RuleDef
  session_drop_flag : RuleDef
  revenue_gap_flag : RuleDef

structure TargetsAndConstraints where
  roas_goal : Option ℚ
  cac_ceiling : Option ℚ
  mer_goal : Option ℚ

structure BusinessContext where
  business_profile : BusinessProfile
  data_contracts : DataContracts
  attribution_rules : AttributionRules
  trust_and_safety_rails : SafetyRails
  targets_and_constraints : TargetsAndConstraints

/-- JS truthiness of an optional numeric config value: absent or zero is
falsy. -/
def truthyOpt (o : Option ℚ) : Option ℚ :=
  match o with
  | none => none
  | some v => if v = 0 then none else some v

/-- Embedding of `buildSystemPrompt` from `prompts.js`. -/
def buildSystemPrompt (businessContext : BusinessContext) : String :=
  let bp := businessContext.business_profile
  let dc := businessContext.data_contracts
  let ar := businessContext.attribution_rules
  let rails := businessContext.trust_and_safety_rails
  let targets := businessContext.targets_and_constraints
  "You are a senior ecommerce analyst embedded inside a Shopify dashboard app.\nYour job: turn raw store data into sharp, actionable insight cards for the store owner.\n\n## Business Context\n- Store: " ++
    bp.store_name ++ " (" ++ bp.industry ++ ")\n- Stage: " ++
    bp.business_stage ++ " | AOV band: " ++ bp.aov_band ++ " | Margins: " ++
    bp.margin_model ++ "\n- Currency: " ++ bp.currency_symbol ++ " (" ++
    bp.currency ++ ")\n" ++
    (if 0 < bp.hero_products.length then
      "- Hero products: " ++ joinSep ", " bp.hero_products
     else "") ++ "\n" ++
    (match truthyOpt targets.roas_goal with
     | some g => "- ROAS target: " ++ jsNumStr g ++ "x"
     | none => "") ++ "\n" ++
    (match truthyOpt targets.cac_ceiling with
     | some c => "- CAC ceiling: " ++ bp.currency_symbol ++ jsNumStr c
     | none => "") ++ "\n" ++
    (match truthyOpt targets.mer_goal with
     | some m => "- MER goal: " ++ jsNumStr m ++ "x"
     | none => "") ++
    "\n\n## Insight Pipeline (follow this in order)\n1. DATA AUDIT — Check what data sources are present. Note any missing sources.\n2. METRIC ASSEMBLY — Use canonical definitions:\n   - Revenue = " ++
    dc.revenue.definition ++ "\n   - Orders = " ++ dc.orders.definition ++
    "\n   - Sessions = " ++ dc.sessions.definition ++
    "\n   - Conversion rate = " ++ dc.conversion_rate.definition ++ " (" ++
    dc.conversion_rate.warning ++ ")\n   - ROAS = " ++ dc.roas.definition ++
    " (" ++ dc.roas.warning ++ ")\n3. CROSS-SOURCE VALIDATION — " ++
    ar.discrepancy_flag.rule ++
    "\n4. PATTERN DETECTION — Find the biggest signal in the data. What\x27s working? What\x27s broken?\n5. ROOT CAUSE HYPOTHESIS — Why is that pattern happening? Name the specific driver.\n6. ACTION PRESCRIPTION — One specific action per tile. Name the product, page, or campaign.\n\n## Safety Rails\n- " ++
    rails.minimum_purchases.rule ++ "\n- " ++ rails.minimum_trend_days.rule ++
    "\n- " ++ rails.session_drop_flag.rule ++ "\n- " ++
    rails.revenue_gap_flag.rule ++
    "\n\n## Output Format\n- Write like a sharp advisor texting a store owner. No corporate buzzwords.\n- Use £ for all currency values.\n- Use emoji STRATEGICALLY only: 📈📉 trends, 💰 money, ⚠️ problems, ✅ wins, 🎯 actions\n- Every sentence must be actionable or data-driven. No filler.\n- NEVER just celebrate wins. Every positive MUST include \"but here\x27s how to go further\".\n- Format positives as: [Current state] → [Action] = [Expected result]\n- Use SPECIFIC product names from the data. Never say \"your products\" — name them.\n- If revenue is estimated, note with ~ prefix.\n- Do NOT present cross-source conversion rate as exact — it\x27s directional only."

/-! ## Tile prompt builder

Embedding of `TILE_PROMPTS` and `buildTilePrompt` from `prompts.js`. -/

def TILE_HEALTH_CHECK : String :=
  "### HEALTH CHECK\nStart with EXACTLY one status emoji: 🟢 (healthy), 🟡 (needs attention), or 🔴 (critical).\nOne-line verdict. Then 3 key metrics on new lines: Revenue, Orders, AOV — each with brief context.\nEvery metric must include an improvement action. 40 words max total."

def TILE_BIGGEST_ISSUE : String :=
  "### BIGGEST ISSUE\nThe #1 thing costing money right now. Name the specific problem, the £ impact, and one fix. Be blunt. 30 words max."

def TILE_QUICK_WIN : String :=
  "### QUICK WIN\nOne specific action for THIS WEEK. Name the product/page/campaign. What to do and expected £ impact. 30 words max."

def TILE_OPPORTUNITY : String :=
  "### OPPORTUNITY\nOne growth pattern from the data. Name specific products. Recommendation with realistic £ potential over 30 days. 30 words max."

def TILE_AD_PERFORMANCE : String :=
  "### AD PERFORMANCE\nStart with EXACTLY one status emoji: 🟢 (ROAS >2.5), 🟡 (ROAS 1.5-2.5), or 🔴 (ROAS <1.5).\nROAS value, verdict, and one specific optimization. Name what to change. 30 words max."

/-- The SHOPIFY DATA lines of the prompt data block. -/
def shopifyLines (s : ShopifySummary) : String :=
  "SHOPIFY DATA:\n- Orders: " ++ strLocale s.orders ++
    " (exact count)\n- AOV: £" ++ strFixed2 s.aov ++ " (from " ++
    strNat s.sample_size ++ " order sample)\n" ++
    (if s.revenue_is_estimated then
      "- Estimated revenue: ~£" ++ strFixed2 s.revenue ++ " (AOV × order count)\n"
     else "- Revenue: £" ++ strFixed2 s.revenue ++ "\n")

/-- The GA4 DATA lines of the prompt data block. -/
def ga4Lines : Option Ga4Summary → String
  | some g =>
    "\nGA4 DATA:\n- Sessions: " ++ strLocale g.sessions ++
      "\n- Bounce rate: " ++ strFixed1 (g.bounce_rate * 100) ++
      "%\n- Users: " ++ strLocale g.users ++ "\n- Page views: " ++
      strLocale g.page_views ++ "\n"
  | none => "\nGA4 DATA: Not connected\n"

/-- Rendering of the nullable CPC field: `toFixed(2)` or `N/A`. -/
def cpcStr : Option ℚ → String
  | some v => strFixed2 v
  | none => "N/A"

/-- Rendering of the nullable CTR field: `toFixed(2) + "%"` or `N/A`. -/
def ctrStr : Option ℚ → String
  | some v => strFixed2 v ++ "%"
  | none => "N/A"

/-- Rendering of the nullable ROAS field: number plus `x` or `N/A`. -/
def roasStr : Option ℚ → String
  | some v => jsNumStr v ++ "x"
  | none => "N/A"

/-- The META ADS DATA lines of the prompt data block. -/
def metaLines : Option MetaAdsSummary → String
  | some m =>
    "\nMETA ADS DATA:\n- Spend: £" ++ strFixed2 m.spend ++
      "\n- Impressions: " ++ strLocale m.impressions ++ "\n- Clicks: " ++
      strLocale m.clicks ++ "\n- CPC: £" ++ cpcStr m.cpc ++ "\n- CTR: " ++
      ctrStr m.ctr ++ "\n- Purchases: " ++ strNat m.purchases ++
      "\n- Revenue (Shopify-attributed): £" ++ strFixed2 m.revenue ++
      "\n- ROAS (Shopify revenue ÷ Meta spend): " ++ roasStr m.roas ++ "\n"
  | none => "\nMETA ADS DATA: Not connected\n"

/-- One TOP PRODUCTS BY REVENUE line. -/
def revLine (ip : ℕ × ProductSummary) : String :=
  strNat (ip.1 + 1) ++ ". " ++ ip.2.title ++ " — £" ++
    strFixed2 ip.2.revenue ++ " (" ++ strNat ip.2.units ++ " units)\n"

/-- One TOP PRODUCTS BY UNITS SOLD line. -/
def unitLine (ip : ℕ × ProductSummary) : String :=
  strNat (ip.1 + 1) ++ ". " ++ ip.2.title ++ " — " ++ strNat ip.2.units ++
    " units (£" ++ strFixed2 ip.2.revenue ++ ")\n"

/-- The TOP PRODUCTS lines of the prompt data block. -/
def topLines : Option TopProductsSummary → String
  | some tp =>
    (if 0 < tp.by_revenue.length then
      "\nTOP PRODUCTS BY REVENUE:\n" ++ catList ((withIdx tp.by_revenue).map revLine)
     else "") ++
    (if 0 < tp.by_units.length then
      "\nTOP PRODUCTS BY UNITS SOLD:\n" ++ catList ((withIdx tp.by_units).map unitLine)
     else "")
  | none => ""

/-- The data block of the user prompt: everything `buildTilePrompt`
accumulates before the tile instructions. -/
def dataBlock (ds : DataSummary) : String :=
  "Here is the store data for the " ++ ds.period ++ ":\n\n" ++
    shopifyLines ds.shopify ++ ga4Lines ds.ga4 ++ metaLines ds.meta_ads ++
    topLines ds.top_products

/-- The tile-instruction block of the user prompt, a function of
`hasMetaAds` alone. -/
def tileBlock (hasMetaAds : Bool) : String :=
  "\nRespond with EXACTLY these " ++ strNat (if hasMetaAds then 5 else 4) ++
    " sections using ### headers:\n\n" ++ TILE_HEALTH_CHECK ++ "\n\n" ++
    TILE_BIGGEST_ISSUE ++ "\n\n" ++ TILE_QUICK_WIN ++ "\n\n" ++
    TILE_OPPORTUNITY ++
    (if hasMetaAds then "\n\n" ++ TILE_AD_PERFORMANCE else "")

/-- Embedding of `buildTilePrompt` from `prompts.js`. -/
def buildTilePrompt (ds : DataSummary) (hasMetaAds : Bool) : String :=
  dataBlock ds ++ tileBlock hasMetaAds

/-! ## Context validator

Embedding of `validateBusinessContext` from `prompts.js`. -/

/-- ASCII lowercasing: model of `toLowerCase` on the titles used here. -/
def lowerStr (s : String) : String := ⟨s.data.map Char.toLower⟩

def digitVal (c : Char) : ℕ := c.toNat - 48

/-- Numeric value of a digit run (model of `parseFloat` on the digit
captures of the band regex). -/
def parseDigits (l : List Char) : ℕ :=
  l.foldl (fun acc c => acc * 10 + digitVal c) 0

/-- Attempt to read `(\d+)-(\d+)` at the head of `l` (the part of the
band regex after `£`). -/
def tryBand (l : List Char) : Option (ℕ × ℕ) :=
  let d1 := l.takeWhile Char.isDigit
  if d1.isEmpty then none
  else
    match l.dropWhile Char.isDigit with
    | '-' :: r2 =>
      let d2 := r2.takeWhile Char.isDigit
      if d2.isEmpty then none else some (parseDigits d1, parseDigits d2)
    | _ => none

/-- Model of `aov_band.match(/£(\d+)-(\d+)/)`: the numeric captures of
the first match, scanning left to right. -/
def scanBand : List Char → Option (ℕ × ℕ)
  | [] => none
  | c :: rest =>
    if c = '£' then
      match tryBand rest with
      | some r => some r
      | none => scanBand rest
    else scanBand rest

/-- Check 1 of the validator: AOV against the declared band. -/
def aovBandNotes (bp : BusinessProfile) (s : ShopifySummary) : List String :=
  match scanBand bp.aov_band.data with
  | some (bandLow, bandHigh) =>
    if s.aov < (bandLow : ℚ) then
      ["Your actual AOV this period was £" ++ strFixed2 s.aov ++
        ", which is below your stated " ++ bp.aov_band ++
        " band. You might want to update business-context.json."]
    else if s.aov > (bandHigh : ℚ) then
      ["Your actual AOV this period was £" ++ strFixed2 s.aov ++
        ", which is above your stated " ++ bp.aov_band ++
        " band. You might want to update business-context.json."]
    else []
  | none => []

/-- Check 2 of the validator: declared hero products against the top 5
by revenue. -/
def heroNotes (bp : BusinessProfile) (tps : Option TopProductsSummary) :
    List String :=
  match tps with
  | some tp =>
    if 0 < bp.hero_products.length ∧ 0 < tp.by_revenue.length then
      let topTitles := (tp.by_revenue.take 5).map fun p => lowerStr p.title
      let missingHeroes :=
        bp.hero_products.filter fun hero => !topTitles.contains (lowerStr hero)
      if 0 < missingHeroes.length then
        ["Hero product" ++ (if 1 < missingHeroes.length then "s" else "") ++
          " not in top 5 by revenue this period: " ++
          joinSep ", " missingHeroes ++
          ". Either they\x27re underperforming or the hero list in business-context.json needs updating."]
      else []
    else []
  | none => []

/-- Check 3 of the validator: blended ROAS against 50% of the goal. -/
def roasNotes (targets : TargetsAndConstraints) (mas : Option MetaAdsSummary) :
    List String :=
  match truthyOpt targets.roas_goal, mas with
  | some goal, some m =>
    match m.roas with
    | some actualRoas =>
      if actualRoas < goal * (1 / 2) then
        ["Blended ROAS is " ++ jsNumStr actualRoas ++
          "x — below 50% of your " ++ jsNumStr goal ++
          "x goal for the full 30-day period. Consider whether the " ++
          jsNumStr goal ++ "x target is realistic or if ad strategy needs reworking."]
      else []
    | none => []
  | _, _ => []

/-- Check 4 of the validator: CPA against the CAC ceiling, with an
escalated wording beyond twice the ceiling. -/
def cpaNotes (targets : TargetsAndConstraints) (mas : Option MetaAdsSummary)
    (s : ShopifySummary) : List String :=
  match truthyOpt targets.cac_ceiling, mas with
  | some ceiling, some m =>
    if m.spend > 0 ∧ 0 < s.orders then
      let actualCpa := m.spend / (s.orders : ℚ)
      if actualCpa > ceiling then
        if actualCpa > ceiling * 2 then
          ["CPA is £" ++ strFixed2 actualCpa ++ " — more than double your £" ++
            jsNumStr ceiling ++
            " ceiling. This has been consistently above target. The ceiling may be set too low for this channel, or ad efficiency needs serious attention."]
        else
          ["CPA is £" ++ strFixed2 actualCpa ++ ", which is " ++
            strFixed0 ((actualCpa / ceiling - 1) * 100) ++ "% above your £" ++
            jsNumStr ceiling ++
            " CAC ceiling. Worth investigating whether this is a recent spike or a consistent pattern."]
      else []
    else []
  | _, _ => []

/-- Embedding of `validateBusinessContext`: the four independent checks,
each appending its notes in order. -/
def validateBusinessContext (businessContext : BusinessContext)
    (ds : DataSummary) : List String :=
  aovBandNotes businessContext.business_profile ds.shopify ++
    heroNotes businessContext.business_profile ds.top_products ++
    roasNotes businessContext.targets_and_constraints ds.meta_ads ++
    cpaNotes businessContext.targets_and_constraints ds.meta_ads ds.shopify

/-! ## Insight generator and orchestration

Embedding of `generateTileInsights` (`lib/insights.js`) with the model
invocation as an opaque function `llm system user maxTokens → text`, and
of the optional-source handling of the dashboard routes. -/

/-- The CONTEXT NOTES block prepended to the user prompt when the
validator produced notes. -/
def contextBlock (contextNotes : List String) : String :=
  "\nCONTEXT NOTES (acknowledge these briefly at the start of HEALTH CHECK):\n" ++
    joinSep "\n" (contextNotes.map fun n => "- " ++ n) ++ "\n"

/-- Embedding of `generateTileInsights`: configuration gate, summary and
prompt construction, one model call, parse, severity derivation. -/
def generateTileInsights (llm : String → String → ℕ → String)
    (apiKeyPresent : Bool) (businessContext : BusinessContext)
    (shopifyStats : ShopifyStats) (gaData : Option AnalyticsData)
    (metaAdsData : Option AdPlatformData) (topProducts : Option TopProducts) :
    Option Tiles :=
  if !apiKeyPresent then none
  else
    let dataSummary := buildDataSummary shopifyStats gaData metaAdsData topProducts
    let hasMetaAds := metaAdsData.isSome
    let systemPrompt := buildSystemPrompt businessContext
    let basePrompt := buildTilePrompt dataSummary hasMetaAds
    let contextNotes := validateBusinessContext businessContext dataSummary
    let userPrompt :=
      if 0 < contextNotes.length then contextBlock contextNotes ++ "\n" ++ basePrompt
      else basePrompt
    let text := llm systemPrompt userPrompt (if hasMetaAds then 1000 else 800)
    some (assembleTiles text metaAdsData)

/-- Result of an optional-source fetch: the fetch either raised
(`Except.error`) or returned its value (`null` when unconfigured). -/
def catchAbsent : Except String (Option α) → Option α
  | Except.error _ => none
  | Except.ok v => v

/-- The dashboard routes per-source downgrading composed with the
generator: `fetchGoogleAnalyticsData().catch(() => null)` and
`fetchMetaAdsData().catch(() => null)` feeding `generateTileInsights`. -/
def dashboardInsights (llm : String → String → ℕ → String)
    (apiKeyPresent : Bool) (businessContext : BusinessContext)
    (orderStats : ShopifyStats) (orderTop : Option TopProducts)
    (gaRes : Except String (Option AnalyticsData))
    (metaRes : Except String (Option AdPlatformData)) : Option Tiles :=
  generateTileInsights llm apiKeyPresent businessContext orderStats
    (catchAbsent gaRes) (catchAbsent metaRes) orderTop

/-! ## Concrete instances used by the witnesses -/

/-- A concrete business context used to instantiate theorems. -/
def ctxW : BusinessContext :=
  { business_profile :=
      { store_name := "Acme Candles", industry := "home fragrance"
        business_stage := "growth", aov_band := "£40-60"
        margin_model := "healthy", currency := "GBP", currency_symbol := "£"
        hero_products := [] }
    data_contracts :=
      { revenue := ⟨"paid order totals", "gross"⟩
        orders := ⟨"paid orders", "gross"⟩
        sessions := ⟨"GA4 sessions", "sampled"⟩
        conversion_rate := ⟨"orders over sessions", "directional"⟩
        roas := ⟨"revenue over spend", "blended"⟩ }
    attribution_rules := ⟨⟨"flag large discrepancies"⟩⟩
    trust_and_safety_rails :=
      ⟨⟨"need 30 purchases"⟩, ⟨"need 7 days"⟩, ⟨"flag session drops"⟩,
        ⟨"flag revenue gaps"⟩⟩
    targets_and_constraints := ⟨none, none, none⟩ }

/-- A trivial model function used to instantiate theorems. -/
def llmW : String → String → ℕ → String := fun _ _ _ => ""

/-- Concrete Shopify stats used to instantiate theorems. -/
def statsW : ShopifyStats := ⟨120, 6000, 50, 120, false⟩

/-- An empty store used to instantiate cache theorems. -/
def stW : Store ℕ ℕ := ⟨fun _ => none, fun _ => none, fun _ => none⟩

/-- A store with a token and both cache entries for every shop, used to
instantiate the deletion theorem. -/
def stFull : Store ℕ ℕ :=
  ⟨fun _ => some ⟨"token", 0⟩, fun _ => some (3, 0), fun _ => some (4, 0)⟩

/-! ## Derived definitions used by the theorems -/

/-- First line of the trimmed segment, uppercased — the classification
key of the parsing loop. -/
def segKey (seg : List Char) : List Char := firstLineUpper (jsTrim seg)

/-- Segment selects the health-check tile. -/
def mHealth (seg : List Char) : Bool :=
  !(jsTrim seg).isEmpty && occursIn "HEALTH".data (segKey seg)

/-- Segment selects the biggest-issue tile. -/
def mIssue (seg : List Char) : Bool :=
  !(jsTrim seg).isEmpty && !occursIn "HEALTH".data (segKey seg) &&
    occursIn "ISSUE".data (segKey seg)

/-- Segment selects the quick-win tile. -/
def mQuickWin (seg : List Char) : Bool :=
  !(jsTrim seg).isEmpty && !occursIn "HEALTH".data (segKey seg) &&
    !occursIn "ISSUE".data (segKey seg) &&
    (occursIn "QUICK".data (segKey seg) || occursIn "WIN".data (segKey seg))

/-- Segment selects the opportunity tile. -/
def mOpportunity (seg : List Char) : Bool :=
  !(jsTrim seg).isEmpty && !occursIn "HEALTH".data (segKey seg) &&
    !occursIn "ISSUE".data (segKey seg) &&
    !(occursIn "QUICK".data (segKey seg) || occursIn "WIN".data (segKey seg)) &&
    occursIn "OPPORTUN".data (segKey seg)

/-- Segment selects the ad-performance tile. -/
def mAdPerf (seg : List Char) : Bool :=
  !(jsTrim seg).isEmpty && !occursIn "HEALTH".data (segKey seg) &&
    !occursIn "ISSUE".data (segKey seg) &&
    !(occursIn "QUICK".data (segKey seg) || occursIn "WIN".data (segKey seg)) &&
    !occursIn "OPPORTUN".data (segKey seg) &&
    (occursIn "AD".data (segKey seg) && occursIn "PERF".data (segKey seg))

/-- The body contributed by the last segment matching `m`, or `""` when
no segment of the text matches. -/
def tileOf (m : List Char → Bool) (text : String) : String :=
  match (splitSecs text.data).reverse.find? m with
  | none => ""
  | some seg => segBody seg

/-- A validator note counts as AOV-related when it starts with the
fixed lead-in of the AOV-band check. -/
def isAovNote (s : String) : Bool :=
  leadsList "Your actual AOV".data s.data

/-- Characters the numeric formatters can emit. -/
def numCs : List Char :=
  ['0', '1', '2', '3', '4', '5', '6', '7', '8', '9', ',', '.', '-']

/-- The hash character never appears in the free strings of a data
summary: its period string and every product title.  The fixed text and
the numeric renderings of the prompt builder never emit `#`, so under
this condition the data block of the prompt is `#`-free and all `###`
markers of the prompt come from the tile-instruction block. -/
def cleanSummary (ds : DataSummary) : Prop :=
  '#' ∉ ds.period.data ∧
    match ds.top_products with
    | none => True
    | some tp =>
      (∀ p ∈ tp.by_revenue, '#' ∉ p.title.data) ∧
        (∀ p ∈ tp.by_units, '#' ∉ p.title.data)

/-- The section headers of the five tile-instruction blocks. -/
def tileHeaders : List String :=
  ["### HEALTH CHECK", "### BIGGEST ISSUE", "### QUICK WIN",
    "### OPPORTUNITY", "### AD PERFORMANCE"]

/-- A summary with AOV 50, inside the declared £40-60 band. -/
def dsInW : DataSummary := ⟨"Last 30 days", ⟨120, 6000, false, 50, 120⟩, none, none, none⟩

/-- A summary with AOV 30, below the declared £40-60 band. -/
def dsLowW : DataSummary := ⟨"Last 30 days", ⟨120, 3600, false, 30, 120⟩, none, none, none⟩

/-! ## C1: ad severity is numeric and independent of the model text -/

/-- C1: for every ad-platform value handed to `generateTileInsights`,
the returned `adSeverity` is computed from `adData.revenue` and
`adData.spend` alone, whatever text the model returns: with positive
spend, ROAS below 1.5 gives critical, ROAS between 1.5 and 2.5 gives
warning, ROAS above 2.5 gives healthy; zero spend or absent ad data give
healthy. -/
theorem adSeverity_pure (m : AdPlatformData) (llm : String → String → ℕ → String)
    (ctx : BusinessContext) (stats : ShopifyStats) (ga : Option AnalyticsData)
    (tp : Option TopProducts) (text : String) :
    ((generateTileInsights llm true ctx stats ga (some m) tp).map Tiles.adSeverity
        = some (adSeverityOf (some m)))
    ∧ (assembleTiles text (some m)).adSeverity = adSeverityOf (some m)
    ∧ (m.spend > 0 → m.revenue / m.spend < 3 / 2 →
        adSeverityOf (some m) = Severity.critical)
    ∧ (m.spend > 0 → 3 / 2 ≤ m.revenue / m.spend → m.revenue / m.spend ≤ 5 / 2 →
        adSeverityOf (some m) = Severity.warning)
    ∧ (m.spend > 0 → 5 / 2 < m.revenue / m.spend →
        adSeverityOf (some m) = Severity.healthy)
    ∧ (m.spend = 0 → adSeverityOf (some m) = Severity.healthy)
    ∧ adSeverityOf (none : Option AdPlatformData) = Severity.healthy := by
  refine ⟨?_, rfl, ?_, ?_, ?_, ?_, rfl⟩
  · simp [generateTileInsights, assembleTiles]
  · intro hs hr
    simp only [adSeverityOf]
    rw [if_pos hs, if_pos hr]
  · intro hs h₁ h₂
    simp only [adSeverityOf]
    rw [if_pos hs, if_neg (by linarith), if_pos h₂]
  · intro hs h₁
    simp only [adSeverityOf]
    rw [if_pos hs, if_neg (by linarith), if_neg (by linarith)]
  · intro hs
    simp only [adSeverityOf]
    rw [if_neg (by simp [hs])]

/-- Witness for C1 at the spec data points: spend 100 with revenue
120, 200 and 300, and spend 0. -/
theorem adSeverity_pure_witness :
    adSeverityOf (some ⟨100, 0, 0, 0, 120⟩) = Severity.critical
    ∧ adSeverityOf (some ⟨100, 0, 0, 0, 200⟩) = Severity.warning
    ∧ adSeverityOf (some ⟨100, 0, 0, 0, 300⟩) = Severity.healthy
    ∧ adSeverityOf (some ⟨0, 0, 0, 0, 50⟩) = Severity.healthy :=
  ⟨(adSeverity_pure ⟨100, 0, 0, 0, 120⟩ llmW ctxW statsW none none "").2.2.1
      (by norm_num) (by norm_num),
   (adSeverity_pure ⟨100, 0, 0, 0, 200⟩ llmW ctxW statsW none none "").2.2.2.1
      (by norm_num) (by norm_num) (by norm_num),
   (adSeverity_pure ⟨100, 0, 0, 0, 300⟩ llmW ctxW statsW none none "").2.2.2.2.1
      (by norm_num) (by norm_num),
   (adSeverity_pure ⟨0, 0, 0, 0, 50⟩ llmW ctxW statsW none none "").2.2.2.2.2.1
      rfl⟩

/-! ## C3: exact revenue on a full paginated fetch -/

/-- C3: the stats built on a cache miss always carry
`revenueIsEstimated = false`, revenue equal to the exact sum of
`total_price` over the paginated paid orders, `sampleSize` equal to the
number of those orders, and AOV equal to `revenue / sampleSize` when the
sample is non-empty and `0` otherwise. -/
theorem shopifyStats_exact (countAnyStatus : ℕ) (allPaidOrders : List Order) :
    (shopifyStatsOnMiss countAnyStatus allPaidOrders).revenueIsEstimated = false
    ∧ (shopifyStatsOnMiss countAnyStatus allPaidOrders).revenue =
        (allPaidOrders.map fun o => o.total_price.getD 0).sum
    ∧ (shopifyStatsOnMiss countAnyStatus allPaidOrders).sampleSize =
        allPaidOrders.length
    ∧ (0 < allPaidOrders.length →
        (shopifyStatsOnMiss countAnyStatus allPaidOrders).avgOrderValue =
          (shopifyStatsOnMiss countAnyStatus allPaidOrders).revenue /
            (allPaidOrders.length : ℚ))
    ∧ (allPaidOrders.length = 0 →
        (shopifyStatsOnMiss countAnyStatus allPaidOrders).avgOrderValue = 0) := by
  refine ⟨rfl, rfl, rfl, ?_, ?_⟩
  · intro h
    simp only [shopifyStatsOnMiss]
    rw [if_pos h]
  · intro h
    simp only [shopifyStatsOnMiss]
    rw [if_neg (by omega)]

/-- Witness for C3 on a concrete two-order fetch. -/
theorem shopifyStats_exact_witness :
    (shopifyStatsOnMiss 5 [⟨some 10⟩, ⟨some 20⟩]).revenueIsEstimated = false
    ∧ (shopifyStatsOnMiss 5 [⟨some 10⟩, ⟨some 20⟩]).avgOrderValue =
        (shopifyStatsOnMiss 5 [⟨some 10⟩, ⟨some 20⟩]).revenue /
          (([⟨some 10⟩, ⟨some 20⟩] : List Order).length : ℚ)
    ∧ (shopifyStatsOnMiss 7 ([] : List Order)).avgOrderValue = 0 :=
  ⟨(shopifyStats_exact 5 [⟨some 10⟩, ⟨some 20⟩]).1,
   (shopifyStats_exact 5 [⟨some 10⟩, ⟨some 20⟩]).2.2.2.1 (by norm_num),
   (shopifyStats_exact 7 []).2.2.2.2 rfl⟩

/-! ## C10: any-status order count versus paid sample size -/

/-- C10: `orderCount` comes from the any-status count query while
`sampleSize` counts the paginated paid orders, so whenever those two
upstream numbers differ the built stats have `orderCount ≠ sampleSize`
while `revenueIsEstimated` is still `false`. -/
theorem orderCount_vs_sampleSize (countAnyStatus : ℕ)
    (allPaidOrders : List Order)
    (h : countAnyStatus ≠ allPaidOrders.length) :
    (shopifyStatsOnMiss countAnyStatus allPaidOrders).orderCount ≠
        (shopifyStatsOnMiss countAnyStatus allPaidOrders).sampleSize
    ∧ (shopifyStatsOnMiss countAnyStatus allPaidOrders).revenueIsEstimated
        = false :=
  ⟨h, rfl⟩

/-- Witness for C10: seven orders of any status, one of them paid. -/
theorem orderCount_vs_sampleSize_witness :
    (7 : ℕ) ≠ ([⟨some 10⟩] : List Order).length
    ∧ (shopifyStatsOnMiss 7 [⟨some 10⟩]).orderCount ≠
        (shopifyStatsOnMiss 7 [⟨some 10⟩]).sampleSize
    ∧ (shopifyStatsOnMiss 7 [⟨some 10⟩]).revenueIsEstimated = false :=
  ⟨by decide,
   (orderCount_vs_sampleSize 7 [⟨some 10⟩] (by decide)).1,
   (orderCount_vs_sampleSize 7 [⟨some 10⟩] (by decide)).2⟩

/-! ## C6: cache TTL boundary -/

/-- C6: an insights entry written at time `T` is returned by any lookup
strictly before `T + 24h` and treated as absent by any lookup strictly
after `T + 24h`; the order-data cache behaves the same way with its own
24-hour TTL. -/
theorem cacheTTL_boundary (st : Store ι ω) (shop : String) (d : ι) (w : ω)
    (T t : ℤ) :
    (t < T + INSIGHTS_TTL →
      getCachedInsights (setCachedInsights st shop d T) t shop = some (d, T))
    ∧ (t > T + INSIGHTS_TTL →
      getCachedInsights (setCachedInsights st shop d T) t shop = none)
    ∧ (t < T + ORDER_DATA_TTL →
      (getCachedOrderData (setCachedOrderData st shop w T) t shop).1 =
        some (w, T))
    ∧ (t > T + ORDER_DATA_TTL →
      (getCachedOrderData (setCachedOrderData st shop w T) t shop).1 =
        none) := by
  have hins : (setCachedInsights st shop d T).insightsCache shop = some (d, T) := by
    simp [setCachedInsights]
  have hord : (setCachedOrderData st shop w T).orderDataCache shop = some (w, T) := by
    simp [setCachedOrderData]
  refine ⟨?_, ?_, ?_, ?_⟩
  · intro h
    unfold getCachedInsights
    rw [hins]
    show (if t - T > INSIGHTS_TTL then (none : Option (ι × ℤ)) else some (d, T))
      = some (d, T)
    rw [if_neg (by simp only [INSIGHTS_TTL] at h ⊢; omega)]
  · intro h
    unfold getCachedInsights
    rw [hins]
    show (if t - T > INSIGHTS_TTL then (none : Option (ι × ℤ)) else some (d, T))
      = none
    rw [if_pos (by simp only [INSIGHTS_TTL] at h ⊢; omega)]
  · intro h
    unfold getCachedOrderData
    rw [hord]
    show (if t - T > ORDER_DATA_TTL then _ else
      (some (w, T), setCachedOrderData st shop w T)).1 = some (w, T)
    rw [if_neg (by simp only [ORDER_DATA_TTL] at h ⊢; omega)]
  · intro h
    unfold getCachedOrderData
    rw [hord]
    show (if t - T > ORDER_DATA_TTL then _ else
      (some (w, T), setCachedOrderData st shop w T)).1 = none
    rw [if_pos (by simp only [ORDER_DATA_TTL] at h ⊢; omega)]

/-- Witness for C6: an entry written at time `0` is served at time `1`
and absent one millisecond after the 24-hour mark. -/
theorem cacheTTL_boundary_witness :
    getCachedInsights (setCachedInsights stW "shop" 5 0) 1 "shop" = some (5, 0)
    ∧ getCachedInsights (setCachedInsights stW "shop" 5 0) 86400001 "shop" = none
    ∧ (getCachedOrderData (setCachedOrderData stW "shop" 9 0) 1 "shop").1 =
        some (9, 0)
    ∧ (getCachedOrderData (setCachedOrderData stW "shop" 9 0) 86400001 "shop").1 =
        none :=
  ⟨(cacheTTL_boundary stW "shop" 5 9 0 1).1 (by norm_num [INSIGHTS_TTL]),
   (cacheTTL_boundary stW "shop" 5 9 0 86400001).2.1 (by norm_num [INSIGHTS_TTL]),
   (cacheTTL_boundary stW "shop" 5 9 0 1).2.2.1 (by norm_num [ORDER_DATA_TTL]),
   (cacheTTL_boundary stW "shop" 5 9 0 86400001).2.2.2
     (by norm_num [ORDER_DATA_TTL])⟩

/-! ## C7: disconnect deletes token and both caches together -/

/-- C7: after `deleteShopToken shop`, the token lookup, the insights
lookup and the order-data lookup for `shop` all return `null` (the
order-data lookup also leaves the store unchanged, so no intermediate
state is observable), while every other shop keeps its token and both
cache entries unchanged. -/
theorem deleteShopToken_complete (st : Store ι ω) (shop other : String)
    (now : ℤ) :
    getShopToken (deleteShopToken st shop) shop = none
    ∧ getCachedInsights (deleteShopToken st shop) now shop = none
    ∧ (getCachedOrderData (deleteShopToken st shop) now shop).1 = none
    ∧ (getCachedOrderData (deleteShopToken st shop) now shop).2 =
        deleteShopToken st shop
    ∧ (other ≠ shop →
        getShopToken (deleteShopToken st shop) other = getShopToken st other
        ∧ (deleteShopToken st shop).insightsCache other =
            st.insightsCache other
        ∧ (deleteShopToken st shop).orderDataCache other =
            st.orderDataCache other) := by
  refine ⟨?_, ?_, ?_, ?_, ?_⟩
  · simp [getShopToken, deleteShopToken]
  · simp [getCachedInsights, deleteShopToken]
  · simp [getCachedOrderData, deleteShopToken]
  · simp [getCachedOrderData, deleteShopToken]
  · intro hne
    refine ⟨?_, ?_, ?_⟩
    · simp [getShopToken, deleteShopToken, hne]
    · simp [deleteShopToken, hne]
    · simp [deleteShopToken, hne]

/-- Witness for C7 on a fully populated store, checking the deleted shop
and one other shop. -/
theorem deleteShopToken_complete_witness :
    getShopToken (deleteShopToken stFull "a") "a" = none
    ∧ getCachedInsights (deleteShopToken stFull "a") 0 "a" = none
    ∧ (getCachedOrderData (deleteShopToken stFull "a") 0 "a").1 = none
    ∧ getShopToken (deleteShopToken stFull "a") "b" = getShopToken stFull "b" :=
  ⟨(deleteShopToken_complete stFull "a" "b" 0).1,
   (deleteShopToken_complete stFull "a" "b" 0).2.1,
   (deleteShopToken_complete stFull "a" "b" 0).2.2.1,
   ((deleteShopToken_complete stFull "a" "b" 0).2.2.2.2 (by decide)).1⟩

/-! ## C8: optional-source failures downgrade to absent -/

/-- C8: in the dashboard flow a failing analytics fetch or a failing
ad-platform fetch is caught at its own call site and replaced by `null`,
so the generated output is exactly the output for an unconfigured
source, and a failure of one source leaves the other untouched. -/
theorem optionalSource_downgrade (llm : String → String → ℕ → String)
    (apiKeyPresent : Bool) (ctx : BusinessContext) (orderStats : ShopifyStats)
    (orderTop : Option TopProducts)
    (gaRes : Except String (Option AnalyticsData))
    (metaRes : Except String (Option AdPlatformData)) (e e₂ : String) :
    dashboardInsights llm apiKeyPresent ctx orderStats orderTop
        (Except.error e) metaRes
      = dashboardInsights llm apiKeyPresent ctx orderStats orderTop
          (Except.ok none) metaRes
    ∧ dashboardInsights llm apiKeyPresent ctx orderStats orderTop
        gaRes (Except.error e₂)
      = dashboardInsights llm apiKeyPresent ctx orderStats orderTop
          gaRes (Except.ok none)
    ∧ catchAbsent (Except.error e : Except String (Option AnalyticsData)) = none
    ∧ catchAbsent (Except.ok (none : Option AnalyticsData)) = none :=
  ⟨rfl, rfl, rfl, rfl⟩

/-! ## C2: health severity marker precedence -/

/-- C2 counterexample: a health-check section containing both the
warning marker and the critical marker yields `warning`, not the
claimed `critical` — the warning marker is tested first. -/
theorem healthSeverity_both_markers_counterexample :
    containsStr (parseBodies "### HEALTH CHECK\n🟡 revenue flat 🔴 orders down").healthCheck "🟡" = true
    ∧ containsStr (parseBodies "### HEALTH CHECK\n🟡 revenue flat 🔴 orders down").healthCheck "🔴" = true
    ∧ (assembleTiles "### HEALTH CHECK\n🟡 revenue flat 🔴 orders down" none).healthSeverity
        = Severity.warning
    ∧ Severity.warning ≠ Severity.critical :=
  ⟨by decide, by decide, by decide, by decide⟩

/-- C2 amended: the marker scan tests the warning marker first, so a
health-check text containing 🟡 yields `warning` even when 🔴 is also
present; 🔴 yields `critical` only when 🟡 is absent; with neither
marker the severity is `healthy`.  The severity attached by the
generator is exactly this scan applied to the parsed `healthCheck`
body. -/
theorem healthSeverity_precedence (hc text : String)
    (metaAdsData : Option AdPlatformData) :
    (assembleTiles text metaAdsData).healthSeverity
        = healthSeverityOf (parseBodies text).healthCheck
    ∧ (containsStr hc "🟡" = true → healthSeverityOf hc = Severity.warning)
    ∧ (containsStr hc "🟡" = false → containsStr hc "🔴" = true →
        healthSeverityOf hc = Severity.critical)
    ∧ (containsStr hc "🟡" = false → containsStr hc "🔴" = false →
        healthSeverityOf hc = Severity.healthy) := by
  refine ⟨rfl, ?_, ?_, ?_⟩
  · intro h
    simp [healthSeverityOf, h]
  · intro h₁ h₂
    simp [healthSeverityOf, h₁, h₂]
  · intro h₁ h₂
    simp [healthSeverityOf, h₁, h₂]

/-- Witness for the amended C2 at concrete marker texts. -/
theorem healthSeverity_precedence_witness :
    healthSeverityOf "🟡 mixed 🔴" = Severity.warning
    ∧ healthSeverityOf "🔴 bad" = Severity.critical
    ∧ healthSeverityOf "all fine" = Severity.healthy :=
  ⟨(healthSeverity_precedence "🟡 mixed 🔴" "" none).2.1 (by decide),
   (healthSeverity_precedence "🔴 bad" "" none).2.2.1 (by decide) (by decide),
   (healthSeverity_precedence "all fine" "" none).2.2.2 (by decide) (by decide)⟩

/-! ## C9: context validator, AOV band behaviour -/

theorem leadsList_append_left :
    ∀ (p l m : List Char), leadsList p l = true → leadsList p (l ++ m) = true
  | [], _, _, _ => rfl
  | a :: as, [], _, h => by simp [leadsList] at h
  | a :: as, b :: bs, m, h => by
    simp only [leadsList, List.cons_append] at h ⊢
    by_cases hab : a = b
    · rw [if_pos hab] at h ⊢
      exact leadsList_append_left as bs m h
    · rw [if_neg hab] at h
      exact absurd h (by simp)

theorem leadsList_take_false :
    ∀ (p l m : List Char), leadsList (p.take l.length) l = false →
      leadsList p (l ++ m) = false
  | _p, [], _, h => by simp [leadsList] at h
  | [], b :: bs, _, h => by simp [leadsList] at h
  | a :: as, b :: bs, m, h => by
    simp only [List.length_cons, List.take_succ_cons, leadsList,
      List.cons_append] at h ⊢
    by_cases hab : a = b
    · rw [if_pos hab] at h ⊢
      exact leadsList_take_false as bs m h
    · rw [if_neg hab]
  termination_by _ l => l.length


theorem countP_singleton_zero (a : String) (h : isAovNote a = false) :
    List.countP isAovNote [a] = 0 := by
  simp [List.countP_cons, h]

theorem countP_heroNotes (bp : BusinessProfile)
    (tps : Option TopProductsSummary) :
    (heroNotes bp tps).countP isAovNote = 0 := by
  unfold heroNotes
  split
  · dsimp only
    split_ifs with h1 h2 h3
    · refine countP_singleton_zero _ ?_
      simp only [isAovNote, String.data_append, List.append_assoc]
      exact leadsList_take_false _ _ _ (by decide)
    · refine countP_singleton_zero _ ?_
      simp only [isAovNote, String.data_append, List.append_assoc]
      exact leadsList_take_false _ _ _ (by decide)
    · rfl
    · rfl
  · rfl

theorem countP_roasNotes (targets : TargetsAndConstraints)
    (mas : Option MetaAdsSummary) :
    (roasNotes targets mas).countP isAovNote = 0 := by
  unfold roasNotes
  split
  · split
    · split_ifs with h1
      · refine countP_singleton_zero _ ?_
        simp only [isAovNote, String.data_append, List.append_assoc]
        exact leadsList_take_false _ _ _ (by decide)
      · rfl
    · rfl
  · rfl

theorem countP_cpaNotes (targets : TargetsAndConstraints)
    (mas : Option MetaAdsSummary) (s : ShopifySummary) :
    (cpaNotes targets mas s).countP isAovNote = 0 := by
  unfold cpaNotes
  split
  · dsimp only
    split_ifs with h1 h2 h3
    · refine countP_singleton_zero _ ?_
      simp only [isAovNote, String.data_append, List.append_assoc]
      exact leadsList_take_false _ _ _ (by decide)
    · refine countP_singleton_zero _ ?_
      simp only [isAovNote, String.data_append, List.append_assoc]
      exact leadsList_take_false _ _ _ (by decide)
    · rfl
    · rfl
  · rfl

/-- C9: the validator is a pure function — the same inputs give the
same ordered note list — and when the declared AOV band parses as
`£low-high`, an AOV inside `[low, high]` produces no AOV-related note
while an AOV strictly below `low` produces exactly one. -/
theorem validate_aov (businessContext : BusinessContext) (ds : DataSummary)
    (bandLow bandHigh : ℕ)
    (hband : scanBand businessContext.business_profile.aov_band.data =
      some (bandLow, bandHigh)) :
    validateBusinessContext businessContext ds =
        validateBusinessContext businessContext ds
    ∧ ((bandLow : ℚ) ≤ ds.shopify.aov → ds.shopify.aov ≤ (bandHigh : ℚ) →
        (validateBusinessContext businessContext ds).countP isAovNote = 0)
    ∧ (ds.shopify.aov < (bandLow : ℚ) →
        (validateBusinessContext businessContext ds).countP isAovNote = 1) := by
  refine ⟨rfl, ?_, ?_⟩
  · intro h1 h2
    unfold validateBusinessContext
    simp only [List.countP_append, countP_heroNotes, countP_roasNotes,
      countP_cpaNotes, Nat.add_zero]
    unfold aovBandNotes
    split
    · next lo hi heq =>
        rw [hband] at heq
        injection heq with heq'
        have hlo : bandLow = lo := congrArg Prod.fst heq'
        have hhi : bandHigh = hi := congrArg Prod.snd heq'
        subst hlo
        subst hhi
        rw [if_neg (not_lt.mpr h1), if_neg (not_lt.mpr h2)]
        rfl
    · rfl
  · intro h
    unfold validateBusinessContext
    simp only [List.countP_append, countP_heroNotes, countP_roasNotes,
      countP_cpaNotes, Nat.add_zero]
    unfold aovBandNotes
    split
    · next lo hi heq =>
        rw [hband] at heq
        injection heq with heq'
        have hlo : bandLow = lo := congrArg Prod.fst heq'
        have hhi : bandHigh = hi := congrArg Prod.snd heq'
        subst hlo
        subst hhi
        rw [if_pos h]
        have ht : isAovNote ("Your actual AOV this period was £" ++
            strFixed2 ds.shopify.aov ++ ", which is below your stated " ++
            businessContext.business_profile.aov_band ++
            " band. You might want to update business-context.json.") = true := by
          simp only [isAovNote, String.data_append, List.append_assoc]
          exact leadsList_append_left _ _ _ (by decide)
        simp [List.countP_cons, ht]
    · next heq =>
        rw [hband] at heq
        cases heq

/-! ## C5: parser tolerance

The parsing loop is characterised per tile: each tile body equals the
body of the last split segment whose first line matches that tile
(under the if/else-if precedence of the loop), and is the empty string
when no segment matches. -/


theorem classify_healthCheck (t : TileBodies) (seg : List Char) :
    (classify t seg).healthCheck =
      if mHealth seg then segBody seg else t.healthCheck := by
  unfold classify mHealth segKey
  dsimp only
  cases he : (jsTrim seg).isEmpty <;>
    cases hH : occursIn "HEALTH".data (firstLineUpper (jsTrim seg)) <;>
      simp [he, hH] <;> split_ifs <;> rfl

theorem classify_biggestIssue (t : TileBodies) (seg : List Char) :
    (classify t seg).biggestIssue =
      if mIssue seg then segBody seg else t.biggestIssue := by
  unfold classify mIssue segKey
  dsimp only
  cases he : (jsTrim seg).isEmpty <;>
    cases hH : occursIn "HEALTH".data (firstLineUpper (jsTrim seg)) <;>
      cases hI : occursIn "ISSUE".data (firstLineUpper (jsTrim seg)) <;>
        simp [he, hH, hI] <;> split_ifs <;> rfl

theorem classify_quickWin (t : TileBodies) (seg : List Char) :
    (classify t seg).quickWin =
      if mQuickWin seg then segBody seg else t.quickWin := by
  unfold classify mQuickWin segKey
  dsimp only
  cases he : (jsTrim seg).isEmpty <;>
    cases hH : occursIn "HEALTH".data (firstLineUpper (jsTrim seg)) <;>
      cases hI : occursIn "ISSUE".data (firstLineUpper (jsTrim seg)) <;>
        cases hQ : occursIn "QUICK".data (firstLineUpper (jsTrim seg)) <;>
          cases hW : occursIn "WIN".data (firstLineUpper (jsTrim seg)) <;>
            simp [he, hH, hI, hQ, hW] <;> split_ifs <;> rfl

theorem classify_opportunity (t : TileBodies) (seg : List Char) :
    (classify t seg).opportunity =
      if mOpportunity seg then segBody seg else t.opportunity := by
  unfold classify mOpportunity segKey
  dsimp only
  cases he : (jsTrim seg).isEmpty <;>
    cases hH : occursIn "HEALTH".data (firstLineUpper (jsTrim seg)) <;>
      cases hI : occursIn "ISSUE".data (firstLineUpper (jsTrim seg)) <;>
        cases hQ : occursIn "QUICK".data (firstLineUpper (jsTrim seg)) <;>
          cases hW : occursIn "WIN".data (firstLineUpper (jsTrim seg)) <;>
            cases hO : occursIn "OPPORTUN".data (firstLineUpper (jsTrim seg)) <;>
              simp [he, hH, hI, hQ, hW, hO] <;> split_ifs <;> rfl

theorem classify_adPerformance (t : TileBodies) (seg : List Char) :
    (classify t seg).adPerformance =
      if mAdPerf seg then segBody seg else t.adPerformance := by
  unfold classify mAdPerf segKey
  dsimp only
  cases he : (jsTrim seg).isEmpty <;>
    cases hH : occursIn "HEALTH".data (firstLineUpper (jsTrim seg)) <;>
      cases hI : occursIn "ISSUE".data (firstLineUpper (jsTrim seg)) <;>
        cases hQ : occursIn "QUICK".data (firstLineUpper (jsTrim seg)) <;>
          cases hW : occursIn "WIN".data (firstLineUpper (jsTrim seg)) <;>
            cases hO : occursIn "OPPORTUN".data (firstLineUpper (jsTrim seg)) <;>
              cases hA : occursIn "AD".data (firstLineUpper (jsTrim seg)) <;>
                cases hP : occursIn "PERF".data (firstLineUpper (jsTrim seg)) <;>
                  simp [he, hH, hI, hQ, hW, hO, hA, hP] <;> split_ifs <;> rfl

theorem dropWhile_all_append (p : Char → Bool) :
    ∀ (l m : List Char), (∀ c ∈ l, p c = true) →
      (l ++ m).dropWhile p = m.dropWhile p
  | [], _, _ => rfl
  | c :: l', m, h => by
    simp only [List.cons_append, List.dropWhile, h c (List.mem_cons_self c l')]
    exact dropWhile_all_append p l' m fun d hd => h d (List.mem_cons_of_mem c hd)

theorem foldl_classify_field (proj : TileBodies → String)
    (m : List Char → Bool)
    (hstep : ∀ (t : TileBodies) (seg : List Char),
      proj (classify t seg) = if m seg then segBody seg else proj t) :
    ∀ (segs : List (List Char)) (t : TileBodies),
      proj (segs.foldl classify t) =
        match segs.reverse.find? m with
        | none => proj t
        | some seg => segBody seg := by
  intro segs
  induction segs with
  | nil => intro t; rfl
  | cons s rest ih =>
    intro t
    rw [List.foldl_cons, ih, List.reverse_cons, List.find?_append]
    cases hf : rest.reverse.find? m with
    | some u => rfl
    | none =>
      rw [hstep]
      cases hm : m s with
      | true => simp [List.find?, hm]
      | false => simp [List.find?, hm]

/-- C5 counterexample: the model text `### HEALTH CHECK` consists of a
single segment whose first line matches the health keyword and whose
remainder after the first line is empty, yet the populated body is the
keyword line itself rather than the empty trimmed remainder — the
first-line removal regex only fires when the segment contains a
newline. -/
theorem parser_headerOnly_counterexample :
    (parseBodies "### HEALTH CHECK").healthCheck = "HEALTH CHECK"
    ∧ ("HEALTH CHECK" : String) ≠ "" :=
  ⟨by decide, by decide⟩

/-- C5 amended: the parsing loop is a total function whose result is
characterised segment by segment: each tile body is the body of the
last segment whose first line selects that tile under the if/else-if
precedence, where the stored body is the trimmed remainder after the
first line when the trimmed segment contains a newline and the whole
trimmed segment otherwise; tiles with no matching segment stay `""`,
and unmatched or empty segments are dropped. -/
theorem parser_tolerant (text : String) :
    parseBodies text =
      { healthCheck := tileOf mHealth text
        biggestIssue := tileOf mIssue text
        quickWin := tileOf mQuickWin text
        opportunity := tileOf mOpportunity text
        adPerformance := tileOf mAdPerf text }
    ∧ ∀ (l r : List Char), l ≠ [] → (∀ c ∈ l, ¬ c = '\n') →
        stripHead (l ++ '\n' :: r) = r := by
  constructor
  · refine TileBodies.ext ?_ ?_ ?_ ?_ ?_
    · exact foldl_classify_field TileBodies.healthCheck mHealth
        classify_healthCheck _ _
    · exact foldl_classify_field TileBodies.biggestIssue mIssue
        classify_biggestIssue _ _
    · exact foldl_classify_field TileBodies.quickWin mQuickWin
        classify_quickWin _ _
    · exact foldl_classify_field TileBodies.opportunity mOpportunity
        classify_opportunity _ _
    · exact foldl_classify_field TileBodies.adPerformance mAdPerf
        classify_adPerformance _ _
  · intro l r hne hnl
    cases l with
    | nil => exact absurd rfl hne
    | cons c l' =>
      have hc : ¬ c = '\n' := hnl c (List.mem_cons_self c l')
      have hdrop : ((c :: l') ++ '\n' :: r).dropWhile (fun d => d ≠ '\n') =
          '\n' :: r := by
        rw [dropWhile_all_append]
        · simp [List.dropWhile]
        · intro d hd
          simp [hnl d hd]
      show (if c = '\n' then (c :: l') ++ '\n' :: r else
        match ((c :: l') ++ '\n' :: r).dropWhile (fun d => d ≠ '\n') with
        | [] => (c :: l') ++ '\n' :: r
        | _ :: r' => r') = r
      rw [if_neg hc, hdrop]

/-- Witness for the amended C5: the characterisation applied to a
concrete two-section text, and the first-line stripping fact at a
concrete segment. -/
theorem parser_tolerant_witness :
    parseBodies "### HEALTH CHECK\n🟢 fine" =
      { healthCheck := tileOf mHealth "### HEALTH CHECK\n🟢 fine"
        biggestIssue := tileOf mIssue "### HEALTH CHECK\n🟢 fine"
        quickWin := tileOf mQuickWin "### HEALTH CHECK\n🟢 fine"
        opportunity := tileOf mOpportunity "### HEALTH CHECK\n🟢 fine"
        adPerformance := tileOf mAdPerf "### HEALTH CHECK\n🟢 fine" }
    ∧ stripHead (['A'] ++ '\n' :: ['B']) = ['B'] :=
  ⟨(parser_tolerant "### HEALTH CHECK\n🟢 fine").1,
   (parser_tolerant "### HEALTH CHECK\n🟢 fine").2 ['A'] ['B'] (by decide)
     (by decide)⟩

/-! ## C4: tile-count invariant of the user prompt

Supporting lemmas: the characters emitted by the numeric formatters,
occurrence preservation and blocking across the
`dataBlock ++ tileBlock` boundary. -/


theorem digitChar_numCs (k : ℕ) : digitChar k ∈ numCs := by
  unfold digitChar
  split_ifs <;> decide

theorem natCharsAux_numCs :
    ∀ (fuel n : ℕ) (c : Char), c ∈ natCharsAux fuel n → c ∈ numCs
  | 0, _, _, h => absurd h (List.not_mem_nil _)
  | fuel + 1, n, c, h => by
    unfold natCharsAux at h
    split_ifs at h
    · rw [List.mem_singleton] at h
      exact h ▸ digitChar_numCs n
    · rcases List.mem_append.mp h with h' | h'
      · exact natCharsAux_numCs fuel (n / 10) c h'
      · rw [List.mem_singleton] at h'
        exact h' ▸ digitChar_numCs (n % 10)

theorem natChars_numCs (n : ℕ) (c : Char) (h : c ∈ natChars n) : c ∈ numCs :=
  natCharsAux_numCs (n + 1) n c h

theorem group3_sub :
    ∀ (l : List Char) (c : Char), c ∈ group3 l → c ∈ l ∨ c = ','
  | [], _, h => Or.inl h
  | [a], _, h => Or.inl h
  | [a, b], _, h => Or.inl h
  | [a, b, c'], _, h => Or.inl h
  | a :: b :: c' :: d :: rest, c, h => by
    have he : group3 (a :: b :: c' :: d :: rest) =
        a :: b :: c' :: ',' :: group3 (d :: rest) := rfl
    rw [he] at h
    simp only [List.mem_cons] at h ⊢
    rcases h with h | h | h | h | h
    · exact Or.inl (Or.inl h)
    · exact Or.inl (Or.inr (Or.inl h))
    · exact Or.inl (Or.inr (Or.inr (Or.inl h)))
    · exact Or.inr h
    · rcases group3_sub (d :: rest) c h with h' | h'
      · simp only [List.mem_cons] at h'
        rcases h' with h' | h'
        · exact Or.inl (Or.inr (Or.inr (Or.inr (Or.inl h'))))
        · exact Or.inl (Or.inr (Or.inr (Or.inr (Or.inr h'))))
      · exact Or.inr h'

theorem natLocale_numCs (n : ℕ) (c : Char) (h : c ∈ natLocale n) : c ∈ numCs := by
  unfold natLocale at h
  rw [List.mem_reverse] at h
  rcases group3_sub _ _ h with h' | h'
  · exact natChars_numCs n c (List.mem_reverse.mp h')
  · rw [h']
    decide

theorem pad2_numCs (k : ℕ) (c : Char) (h : c ∈ pad2 k) : c ∈ numCs := by
  unfold pad2 at h
  split_ifs at h
  · rcases List.mem_cons.mp h with h' | h'
    · rw [h']
      decide
    · exact natChars_numCs k c h'
  · exact natChars_numCs k c h

theorem fixed2Chars_numCs (q : ℚ) (c : Char) (h : c ∈ fixed2Chars q) :
    c ∈ numCs := by
  unfold fixed2Chars at h
  rcases List.mem_append.mp h with h' | h'
  · rcases List.mem_append.mp h' with h'' | h''
    · split_ifs at h''
      · rw [List.mem_singleton] at h''
        rw [h'']
        decide
      · exact absurd h'' (List.not_mem_nil _)
    · exact natChars_numCs _ c h''
  · rcases List.mem_cons.mp h' with h'' | h''
    · rw [h'']
      decide
    · exact pad2_numCs _ c h''

theorem fixed1Chars_numCs (q : ℚ) (c : Char) (h : c ∈ fixed1Chars q) :
    c ∈ numCs := by
  unfold fixed1Chars at h
  rcases List.mem_append.mp h with h' | h'
  · rcases List.mem_append.mp h' with h'' | h''
    · split_ifs at h''
      · rw [List.mem_singleton] at h''
        rw [h'']
        decide
      · exact absurd h'' (List.not_mem_nil _)
    · exact natChars_numCs _ c h''
  · rcases List.mem_cons.mp h' with h'' | h''
    · rw [h'']
      decide
    · rw [List.mem_singleton] at h''
      exact h'' ▸ digitChar_numCs _

theorem fixed0Chars_numCs (q : ℚ) (c : Char) (h : c ∈ fixed0Chars q) :
    c ∈ numCs := by
  unfold fixed0Chars at h
  rcases List.mem_append.mp h with h' | h'
  · split_ifs at h'
    · rw [List.mem_singleton] at h'
      rw [h']
      decide
    · exact absurd h' (List.not_mem_nil _)
  · exact natChars_numCs _ c h'

theorem jsNumChars_numCs (q : ℚ) (c : Char) (h : c ∈ jsNumChars q) :
    c ∈ numCs := by
  unfold jsNumChars at h
  rcases List.mem_append.mp h with h' | h'
  · rcases List.mem_append.mp h' with h'' | h''
    · split_ifs at h''
      · rw [List.mem_singleton] at h''
        rw [h'']
        decide
      · exact absurd h'' (List.not_mem_nil _)
    · exact natChars_numCs _ c h''
  · split_ifs at h'
    · exact absurd h' (List.not_mem_nil _)
    · rcases List.mem_cons.mp h' with h'' | h''
      · rw [h'']
        decide
      · rw [List.mem_singleton] at h''
        exact h'' ▸ digitChar_numCs _
    · rcases List.mem_cons.mp h' with h'' | h''
      · rw [h'']
        decide
      · exact pad2_numCs _ c h''

theorem hash_not_numCs : ('#' : Char) ∉ numCs := by decide

theorem occursIn_append_right :
    ∀ (a : List Char) (p b : List Char), occursIn p b = true →
      occursIn p (a ++ b) = true
  | [], _, _, h => h
  | x :: a', p, b, h => by
    simp only [List.cons_append, occursIn, Bool.or_eq_true]
    exact Or.inr (occursIn_append_right a' p b h)

theorem leadsList_cross_false :
    ∀ (p a b' : List Char) (c : Char), c ∈ p → c ∉ a → ('\n' : Char) ∉ p →
      leadsList p (a ++ '\n' :: b') = false
  | [], _, _, _, hc, _, _ => absurd hc (List.not_mem_nil _)
  | q :: p', [], b', c, hc, hca, hn => by
    simp only [List.nil_append, leadsList]
    rw [if_neg]
    intro hq
    exact hn (hq ▸ List.mem_cons_self q p')
  | q :: p', y :: a2, b', c, hc, hca, hn => by
    simp only [List.cons_append, leadsList]
    by_cases hqy : q = y
    · rw [if_pos hqy]
      have hcp' : c ∈ p' := by
        rcases List.mem_cons.mp hc with h' | h'
        · exact absurd (h' ▸ hqy ▸ List.mem_cons_self y a2) hca
        · exact h'
      exact leadsList_cross_false p' a2 b' c hcp'
        (fun hm => hca (List.mem_cons_of_mem y hm))
        (fun hm => hn (List.mem_cons_of_mem q hm))
    · rw [if_neg hqy]

theorem occursIn_cross :
    ∀ (a p b' : List Char) (c : Char), c ∈ p → c ∉ a → ('\n' : Char) ∉ p →
      occursIn p (a ++ '\n' :: b') = occursIn p ('\n' :: b')
  | [], _, _, _, _, _, _ => rfl
  | y :: a2, p, b', c, hc, hca, hn => by
    have hl : leadsList p (y :: (a2 ++ '\n' :: b')) = false := by
      have h0 := leadsList_cross_false p (y :: a2) b' c hc hca hn
      rwa [List.cons_append] at h0
    calc occursIn p ((y :: a2) ++ '\n' :: b')
        = occursIn p (y :: (a2 ++ '\n' :: b')) := by rw [List.cons_append]
      _ = (leadsList p (y :: (a2 ++ '\n' :: b')) ||
            occursIn p (a2 ++ '\n' :: b')) := rfl
      _ = occursIn p (a2 ++ '\n' :: b') := by rw [hl, Bool.false_or]
      _ = occursIn p ('\n' :: b') :=
          occursIn_cross a2 p b' c hc
            (fun hm => hca (List.mem_cons_of_mem y hm)) hn

theorem occursIn_cross_head (p a B : List Char) (c : Char) (hc : c ∈ p)
    (hca : c ∉ a) (hn : ('\n' : Char) ∉ p) (hB : B.head? = some '\n') :
    occursIn p (a ++ B) = occursIn p B := by
  cases B with
  | nil => cases hB
  | cons x B' =>
    have hx : x = '\n' := by
      injection hB
    subst hx
    exact occursIn_cross a p B' c hc hca hn


theorem append_noHash {s t : String} (hs : '#' ∉ s.data)
    (ht : '#' ∉ t.data) : '#' ∉ (s ++ t).data := by
  intro hc
  rw [String.data_append] at hc
  rcases List.mem_append.mp hc with h | h
  · exact hs h
  · exact ht h

theorem strNat_noHash (n : ℕ) : '#' ∉ (strNat n).data :=
  fun h => hash_not_numCs (natChars_numCs n '#' h)

theorem strLocale_noHash (n : ℕ) : '#' ∉ (strLocale n).data :=
  fun h => hash_not_numCs (natLocale_numCs n '#' h)

theorem strFixed2_noHash (q : ℚ) : '#' ∉ (strFixed2 q).data :=
  fun h => hash_not_numCs (fixed2Chars_numCs q '#' h)

theorem strFixed1_noHash (q : ℚ) : '#' ∉ (strFixed1 q).data :=
  fun h => hash_not_numCs (fixed1Chars_numCs q '#' h)

theorem jsNumStr_noHash (q : ℚ) : '#' ∉ (jsNumStr q).data :=
  fun h => hash_not_numCs (jsNumChars_numCs q '#' h)

theorem cpcStr_noHash (o : Option ℚ) : '#' ∉ (cpcStr o).data := by
  cases o with
  | none => decide
  | some v => exact strFixed2_noHash v

theorem ctrStr_noHash (o : Option ℚ) : '#' ∉ (ctrStr o).data := by
  cases o with
  | none => decide
  | some v => exact append_noHash (strFixed2_noHash v) (by decide)

theorem roasStr_noHash (o : Option ℚ) : '#' ∉ (roasStr o).data := by
  cases o with
  | none => decide
  | some v => exact append_noHash (jsNumStr_noHash v) (by decide)

theorem mem_strNat (n : ℕ) : ('#' ∈ (strNat n).data) ↔ False :=
  iff_false_intro (strNat_noHash n)

theorem mem_strLocale (n : ℕ) : ('#' ∈ (strLocale n).data) ↔ False :=
  iff_false_intro (strLocale_noHash n)

theorem mem_strFixed2 (q : ℚ) : ('#' ∈ (strFixed2 q).data) ↔ False :=
  iff_false_intro (strFixed2_noHash q)

theorem mem_strFixed1 (q : ℚ) : ('#' ∈ (strFixed1 q).data) ↔ False :=
  iff_false_intro (strFixed1_noHash q)

theorem mem_jsNumStr (q : ℚ) : ('#' ∈ (jsNumStr q).data) ↔ False :=
  iff_false_intro (jsNumStr_noHash q)

theorem mem_cpcStr (o : Option ℚ) : ('#' ∈ (cpcStr o).data) ↔ False :=
  iff_false_intro (cpcStr_noHash o)

theorem mem_ctrStr (o : Option ℚ) : ('#' ∈ (ctrStr o).data) ↔ False :=
  iff_false_intro (ctrStr_noHash o)

theorem mem_roasStr (o : Option ℚ) : ('#' ∈ (roasStr o).data) ↔ False :=
  iff_false_intro (roasStr_noHash o)

theorem shopifyLines_noHash (s : ShopifySummary) :
    '#' ∉ (shopifyLines s).data := by
  unfold shopifyLines
  split_ifs <;> intro hc <;>
    simp +decide only [String.data_append, List.append_assoc, List.mem_append,
      mem_strNat, mem_strLocale, mem_strFixed2, false_or, or_false] at hc

theorem ga4Lines_noHash (g : Option Ga4Summary) : '#' ∉ (ga4Lines g).data := by
  cases g with
  | none => decide
  | some g =>
    show '#' ∉ (ga4Lines (some g)).data
    simp only [ga4Lines]
    intro hc
    simp +decide only [String.data_append, List.append_assoc, List.mem_append,
      mem_strLocale, mem_strFixed1, false_or, or_false] at hc

theorem metaLines_noHash (mo : Option MetaAdsSummary) :
    '#' ∉ (metaLines mo).data := by
  cases mo with
  | none => decide
  | some m =>
    simp only [metaLines]
    intro hc
    simp +decide only [String.data_append, List.append_assoc, List.mem_append,
      mem_strFixed2, mem_strLocale, mem_cpcStr, mem_ctrStr, mem_strNat,
      mem_roasStr, false_or, or_false] at hc

theorem catList_mem :
    ∀ (L : List String) (init : String) (c : Char),
      c ∈ (L.foldl (· ++ ·) init).data → c ∈ init.data ∨ ∃ s ∈ L, c ∈ s.data
  | [], _, _, h => Or.inl h
  | s :: L', init, c, h => by
    rcases catList_mem L' (init ++ s) c h with h' | ⟨t, ht, hct⟩
    · rw [String.data_append] at h'
      rcases List.mem_append.mp h' with h'' | h''
      · exact Or.inl h''
      · exact Or.inr ⟨s, List.mem_cons_self s L', h''⟩
    · exact Or.inr ⟨t, List.mem_cons_of_mem s ht, hct⟩

theorem withIdx0_mem {α : Type} :
    ∀ (l : List α) (k : ℕ) (ip : ℕ × α), ip ∈ withIdx0 k l → ip.2 ∈ l
  | [], _, _, h => absurd h (List.not_mem_nil _)
  | x :: xs, k, ip, h => by
    rcases List.mem_cons.mp h with h' | h'
    · rw [h']
      exact List.mem_cons_self x xs
    · exact List.mem_cons_of_mem x (withIdx0_mem xs (k + 1) ip h')

theorem catListMap_noHash {β : Type} (f : β → String) (l : List β)
    (h : ∀ x ∈ l, '#' ∉ (f x).data) : '#' ∉ (catList (l.map f)).data := by
  intro hc
  rcases catList_mem _ _ _ hc with h' | ⟨s, hs, hcs⟩
  · exact absurd h' (by decide)
  · rcases List.mem_map.mp hs with ⟨x, hx, rfl⟩
    exact h x hx hcs

theorem revLine_noHash (ip : ℕ × ProductSummary)
    (ht : '#' ∉ ip.2.title.data) : '#' ∉ (revLine ip).data := by
  unfold revLine
  intro hc
  simp +decide only [String.data_append, List.append_assoc, List.mem_append,
    mem_strNat, mem_strFixed2, ht, false_or, or_false] at hc

theorem unitLine_noHash (ip : ℕ × ProductSummary)
    (ht : '#' ∉ ip.2.title.data) : '#' ∉ (unitLine ip).data := by
  unfold unitLine
  intro hc
  simp +decide only [String.data_append, List.append_assoc, List.mem_append,
    mem_strNat, mem_strFixed2, ht, false_or, or_false] at hc

theorem topLines_noHash (tps : Option TopProductsSummary)
    (h : match tps with
         | none => True
         | some tp =>
           (∀ p ∈ tp.by_revenue, '#' ∉ p.title.data) ∧
             (∀ p ∈ tp.by_units, '#' ∉ p.title.data)) :
    '#' ∉ (topLines tps).data := by
  cases tps with
  | none => decide
  | some tp =>
    obtain ⟨hrev, hunits⟩ := h
    have hrl : '#' ∉ (catList ((withIdx tp.by_revenue).map revLine)).data :=
      catListMap_noHash revLine _ fun ip hip =>
        revLine_noHash ip (hrev ip.2 (withIdx0_mem _ _ _ hip))
    have hul : '#' ∉ (catList ((withIdx tp.by_units).map unitLine)).data :=
      catListMap_noHash unitLine _ fun ip hip =>
        unitLine_noHash ip (hunits ip.2 (withIdx0_mem _ _ _ hip))
    simp only [topLines]
    split_ifs <;> intro hc <;>
      simp +decide only [String.data_append, List.append_assoc,
        List.mem_append, hrl, hul, false_or, or_false] at hc

theorem dataBlock_noHash (ds : DataSummary) (h : cleanSummary ds) :
    '#' ∉ (dataBlock ds).data := by
  unfold dataBlock
  intro hc
  simp +decide only [String.data_append, List.append_assoc, List.mem_append,
    h.1, iff_false_intro (shopifyLines_noHash ds.shopify),
    iff_false_intro (ga4Lines_noHash ds.ga4),
    iff_false_intro (metaLines_noHash ds.meta_ads),
    iff_false_intro (topLines_noHash ds.top_products h.2),
    false_or, or_false] at hc


/-- C4: for every data summary whose free strings carry no `#`, the
user prompt built with `hasMetaAds = true` contains all five tile
section-header instruction blocks — the Ad Performance block included —
and declares the count 5 in its final instruction; built with
`hasMetaAds = false` it contains exactly the four non-ad blocks, never
the Ad Performance block, and declares the count 4. -/
theorem buildTilePrompt_tileCount (ds : DataSummary) (h : cleanSummary ds) :
    (tileHeaders.filter fun hd => containsStr (buildTilePrompt ds true) hd).length = 5
    ∧ containsStr (buildTilePrompt ds true) "### AD PERFORMANCE" = true
    ∧ containsStr (buildTilePrompt ds true) "these 5 sections using ### headers" = true
    ∧ containsStr (buildTilePrompt ds true) "these 4 sections using ### headers" = false
    ∧ (tileHeaders.filter fun hd => containsStr (buildTilePrompt ds false) hd).length = 4
    ∧ containsStr (buildTilePrompt ds false) "### AD PERFORMANCE" = false
    ∧ containsStr (buildTilePrompt ds false) "these 4 sections using ### headers" = true
    ∧ containsStr (buildTilePrompt ds false) "these 5 sections using ### headers" = false := by
  have hnh := dataBlock_noHash ds h
  have pres : ∀ (pat : String) (b : Bool),
      occursIn pat.data (tileBlock b).data = true →
      containsStr (buildTilePrompt ds b) pat = true := by
    intro pat b hp
    unfold containsStr buildTilePrompt
    rw [String.data_append]
    exact occursIn_append_right _ _ _ hp
  have habs : ∀ (pat : String) (b : Bool), '#' ∈ pat.data →
      ('\n' : Char) ∉ pat.data →
      occursIn pat.data (tileBlock b).data = false →
      containsStr (buildTilePrompt ds b) pat = false := by
    intro pat b hin hnl hf
    unfold containsStr buildTilePrompt
    rw [String.data_append,
      occursIn_cross_head pat.data (dataBlock ds).data (tileBlock b).data '#'
        hin hnh hnl (by cases b <;> decide)]
    exact hf
  have f1 : containsStr (buildTilePrompt ds true) "### HEALTH CHECK" = true :=
    pres _ _ (by decide)
  have f2 : containsStr (buildTilePrompt ds true) "### BIGGEST ISSUE" = true :=
    pres _ _ (by decide)
  have f3 : containsStr (buildTilePrompt ds true) "### QUICK WIN" = true :=
    pres _ _ (by decide)
  have f4 : containsStr (buildTilePrompt ds true) "### OPPORTUNITY" = true :=
    pres _ _ (by decide)
  have f5 : containsStr (buildTilePrompt ds true) "### AD PERFORMANCE" = true :=
    pres _ _ (by decide)
  have c5 : containsStr (buildTilePrompt ds true)
      "these 5 sections using ### headers" = true := pres _ _ (by decide)
  have c4f : containsStr (buildTilePrompt ds true)
      "these 4 sections using ### headers" = false :=
    habs _ _ (by decide) (by decide) (by decide)
  have g1 : containsStr (buildTilePrompt ds false) "### HEALTH CHECK" = true :=
    pres _ _ (by decide)
  have g2 : containsStr (buildTilePrompt ds false) "### BIGGEST ISSUE" = true :=
    pres _ _ (by decide)
  have g3 : containsStr (buildTilePrompt ds false) "### QUICK WIN" = true :=
    pres _ _ (by decide)
  have g4 : containsStr (buildTilePrompt ds false) "### OPPORTUNITY" = true :=
    pres _ _ (by decide)
  have gad : containsStr (buildTilePrompt ds false) "### AD PERFORMANCE" = false :=
    habs _ _ (by decide) (by decide) (by decide)
  have d4 : containsStr (buildTilePrompt ds false)
      "these 4 sections using ### headers" = true := pres _ _ (by decide)
  have d5 : containsStr (buildTilePrompt ds false)
      "these 5 sections using ### headers" = false :=
    habs _ _ (by decide) (by decide) (by decide)
  refine ⟨?_, f5, c5, c4f, ?_, gad, d4, d5⟩
  · simp [tileHeaders, List.filter_cons, f1, f2, f3, f4, f5]
  · simp [tileHeaders, List.filter_cons, g1, g2, g3, g4, gad]


/-- Witness for C4 at a concrete clean summary. -/
theorem buildTilePrompt_tileCount_witness :
    (tileHeaders.filter fun hd =>
        containsStr (buildTilePrompt dsInW true) hd).length = 5
    ∧ (tileHeaders.filter fun hd =>
        containsStr (buildTilePrompt dsInW false) hd).length = 4
    ∧ containsStr (buildTilePrompt dsInW false) "### AD PERFORMANCE" = false :=
  ⟨(buildTilePrompt_tileCount dsInW ⟨by decide, trivial⟩).1,
   (buildTilePrompt_tileCount dsInW ⟨by decide, trivial⟩).2.2.2.2.1,
   (buildTilePrompt_tileCount dsInW ⟨by decide, trivial⟩).2.2.2.2.2.1⟩


/-- Witness for C9 on the concrete context with band £40-60. -/
theorem validate_aov_witness :
    scanBand ctxW.business_profile.aov_band.data = some (40, 60)
    ∧ (validateBusinessContext ctxW dsInW).countP isAovNote = 0
    ∧ (validateBusinessContext ctxW dsLowW).countP isAovNote = 1 :=
  ⟨by decide,
   (validate_aov ctxW dsInW 40 60 (by decide)).2.1 (by norm_num [dsInW])
     (by norm_num [dsInW]),
   (validate_aov ctxW dsLowW 40 60 (by decide)).2.2 (by norm_num [dsLowW])⟩

end SBS
